import Mathlib

/-!
# A shallow embedding of `joblog` (joblog/joblog.py)

`joblog` registers machine-learning training jobs in a MongoDB collection,
keyed by a fingerprint document built from the md5 digests of the training
arrays, the pickled classifier class and the hyperparameter dictionary, and
caches each job's result as a pickled blob in the associated GridFS store.

The external collaborators are modelled as follows, everything else is a
direct translation of `joblog.py`:

* a MongoDB collection is a list of documents (association lists of field
  name to value) in insertion order; `find_one(q)` returns the first
  document that *contains* every field of the query `q` with an equal value
  (MongoDB query documents match by containment: extra fields on the stored
  document never prevent a match, while embedded documents such as the
  `params` dictionary are compared exactly);
* GridFS is a list of `(id, blob)` pairs with a fresh-id counter;
* `pickle.dumps`/`pickle.load` form a bijection, so a blob is represented
  by the pickled value itself (`PValue`), with a dedicated constructor
  `PValue.pnone` for Python's `None`;
* `md5(·).hexdigest()` is an arbitrary digest function `h : Data → String`
  passed explicitly to the operations that hash; theorems that rely on two
  digests being different take that as a hypothesis;
* a scikit-learn classifier class is a record of its pickled identity
  (pickling a class stores a reference to it) and deterministic
  `fit`/`score`/`predict` behaviour, per the computation interface the
  cache consumes.
-/

/-- Raw byte content of a training array: what `md5(X)` digests and what
`fit` consumes. -/
abbrev Data := String

/-- Hyperparameter dictionary (`params`); MongoDB compares embedded
documents exactly, which we model by structural equality of the list. -/
abbrev Params := List (String × Int)

/-- Opaque fitted-model artifact produced by the external computation. -/
abbrev Art := String

/-- Value stored in a field of a MongoDB document: a string (digests,
pickled classes, labels), an integer (free-form metadata), a GridFS blob
identifier, or an embedded parameter dictionary. -/
inductive Val where
  | str : String → Val
  | int : Int → Val
  | blob : Nat → Val
  | dict : Params → Val
  deriving DecidableEq, Repr

/-- A MongoDB document: fields in insertion order. -/
abbrev Doc := List (String × Val)

/-- A Python value that `joblog` pickles into GridFS or returns from
`run`: a fitted artifact, a scalar score, a prediction vector, or Python's
`None` (which `rerun` stores via `self.result = None`). -/
inductive PValue where
  | artifact : Art → PValue
  | score : Int → PValue
  | pred : List Int → PValue
  | pnone : PValue
  deriving DecidableEq, Repr

/-- A scikit-learn classifier class, as consumed by `Job.run`:
`id` is its pickled representation (`dumps(clf)` pickles a reference to
the class), and `fit params X Y` collapses the deterministic
`clf(); set_params(**params); fit(X, Y)` sequence into one function.
`score`/`predict` evaluate a fitted artifact. -/
structure ClfClass where
  id : String
  fit : Params → Data → Data → Art
  score : Art → Data → Data → Int
  predict : Art → Data → List Int

/-- The backing store: the MongoDB collection (documents in insertion
order) plus the GridFS blob store with its fresh-id counter. -/
structure Store where
  coll : List Doc
  fs : List (Nat × PValue)
  nextId : Nat
  deriving DecidableEq

deriving instance DecidableEq for Except

/-- The store a fresh test collection starts from. -/
def Store.empty : Store := ⟨[], [], 0⟩

/-- Field access on a document (first occurrence wins). -/
def docLookup : Doc → String → Option Val
  | [], _ => none
  | (k, v) :: rest, key => if k = key then some v else docLookup rest key

/-- MongoDB query-document matching: document `d` matches query `q` when
`d` contains every field of `q` with an equal value.  Extra fields of `d`
are irrelevant (containment semantics). -/
def docMatches (d : Doc) : Doc → Bool
  | [] => true
  | (k, v) :: rest => if docLookup d k = some v then docMatches d rest else false

/-- `collection.find_one(q)`: first document matching `q`, in insertion
order. -/
def findOne : List Doc → Doc → Option Doc
  | [], _ => none
  | d :: rest, q => if docMatches d q then some d else findOne rest q

/-- `collection.insert(doc)`: append in insertion order. -/
def insertDoc (coll : List Doc) (d : Doc) : List Doc := coll ++ [d]

/-- Effect of a `$set` modifier on one document: replace the field in
place if present, otherwise append it. -/
def setField (d : Doc) (k : String) (v : Val) : Doc :=
  if docLookup d k = none then d ++ [(k, v)]
  else d.map (fun kv => if kv.1 = k then (k, v) else kv)

/-- `collection.update(q, set k v, upsert)`: apply the `$set` to the
first matching document; when none matches and `upsert` is set, insert a
new document built from the query plus the `$set` field. -/
def updateOne : List Doc → Doc → String → Val → Bool → List Doc
  | [], q, k, v, upsert => if upsert then [setField q k v] else []
  | d :: rest, q, k, v, upsert =>
    if docMatches d q then setField d k v :: rest
    else d :: updateOne rest q k v upsert

/-- `pickle.dumps`: serialization, modelled as the identity on `PValue`. -/
def dumps (v : PValue) : PValue := v

/-- `pickle.load` of a fetched blob: inverse of `dumps`. -/
def load (b : PValue) : PValue := b

/-- `fs.put(bytes)`: store a blob under a fresh identifier. -/
def fsPut (st : Store) (b : PValue) : Nat × Store :=
  (st.nextId, { st with fs := st.fs ++ [(st.nextId, b)], nextId := st.nextId + 1 })

/-- `fs.get(id)`: retrieve a blob, `none` when no such file exists. -/
def fsGet (st : Store) (rid : Nat) : Option PValue :=
  match st.fs.find? (fun p => p.1 = rid) with
  | some p => some p.2
  | none => none

/-- `fs.delete(id)`: remove a blob; deleting an absent identifier is a
no-op. -/
def fsDelete (st : Store) (rid : Nat) : Store :=
  { st with fs := st.fs.filter (fun p => p.1 ≠ rid) }

/-- Python's `str.lower()`, character by character. -/
def strLower (s : String) : String := ⟨s.data.map Char.toLower⟩

/-- Normalization `Job.run` applies to its `store` argument before
validating it (lines 140-142): Python `None` becomes the string `"none"`,
then the string is lowercased. -/
def normPolicy (store : Option String) : String :=
  strLower (match store with | none => "none" | some v => v)

/-- A `Job` handle: the classifier class, the training inputs, the
fingerprint document `_entry` computed at construction, and the
`_duplicated` flag fixed at construction. -/
structure Job where
  clf : ClfClass
  X : Data
  Y : Data
  params : Params
  entry : Doc
  duplicated : Bool

/-- Fingerprint document a label-less job builds from its inputs
(joblog.py lines 111-114): the two md5 digests, the pickled classifier
class, and the parameter dictionary. -/
def entryFor (h : Data → String) (clf : ClfClass) (X Y : Data) (params : Params) : Doc :=
  [("_x_hash", Val.str (h X)), ("_y_hash", Val.str (h Y)),
   ("clf", Val.str clf.id), ("params", Val.dict params)]

/-- `Job.__init__` (joblog.py lines 101-122): hash the two arrays with the
digest `h`, build the fingerprint document `_entry` (adding `label` only
when provided), query the collection for a matching document; mark the job
duplicated when one exists, insert the fingerprint document otherwise. -/
def mkJob (h : Data → String) (clf : ClfClass) (X Y : Data) (params : Params)
    (label : Option String) (st : Store) : Job × Store :=
  let entry : Doc := entryFor h clf X Y params
  let entry : Doc :=
    match label with
    | none => entry
    | some l => entry ++ [("label", Val.str l)]
  let dup : Bool := (findOne st.coll entry).isSome
  let st' : Store := if dup then st else { st with coll := insertDoc st.coll entry }
  ({ clf := clf, X := X, Y := Y, params := params, entry := entry, duplicated := dup }, st')

/-- `Job.duplicate` property (lines 190-197): the flag computed at
construction. -/
def Job.duplicate (j : Job) : Bool := j.duplicated

/-- `Job.result` getter (lines 164-169): query the collection afresh for
the entry; when it carries a `result` field, fetch that blob and unpickle
it.  Python returns `None` both when the entry or field is absent and when
the stored blob unpickles to `None`, so both come out as `PValue.pnone`;
fetching a missing or non-blob identifier raises (`.error`). -/
def Job.result (j : Job) (st : Store) : Except String PValue :=
  match findOne st.coll j.entry with
  | none => .ok .pnone
  | some e =>
    match docLookup e "result" with
    | none => .ok .pnone
    | some (Val.blob rid) =>
      match fsGet st rid with
      | some b => .ok (load b)
      | none => .error "NoFile"
    | some _ => .error "NoFile"

/-- `Job.result` deleter (lines 181-187): look up the entry (raising when
it is absent, as `e.get` on `None` does) and delete the blob its `result`
field references, if any. -/
def Job.delResult (j : Job) (st : Store) : Except String Store :=
  match findOne st.coll j.entry with
  | none => .error "AttributeError"
  | some e =>
    match docLookup e "result" with
    | none => .ok st
    | some (Val.blob rid) => .ok (fsDelete st rid)
    | some _ => .ok st

/-- `Job.result` setter (lines 171-179): first delete the old result blob
(`del self.result`), then pickle the new value, put it into GridFS, and
upsert the entry's `result` field to the fresh identifier. -/
def Job.setResult (j : Job) (st : Store) (v : PValue) : Except String Store :=
  match j.delResult st with
  | .error e => .error e
  | .ok st' =>
    let r := dumps v
    let (rid, st'') := fsPut st' r
    .ok { st'' with coll := updateOne st''.coll j.entry "result" (Val.blob rid) true }

/-- `Job.run` (lines 124-162).  The `store` argument is `Option String`
to model passing Python `None`; its Python default is `some "classifier"`.
After normalizing (`None ↦ "none"`, then `str.lower()`) an unrecognized
policy raises `TypeError`.  Otherwise: when the freshly queried result is
not `None` it is returned as-is; else the classifier is fitted and the
artifact, its score, its prediction, or nothing is stored according to the
policy, and the fresh artifact is returned.  The `Bool` in the returned
triple records whether this call executed the fit (the observable
"computation ran" side effect; it is instrumentation, not state). -/
def Job.run (j : Job) (st : Store) (store : Option String) :
    Except String (PValue × Store × Bool) :=
  let s := normPolicy store
  if s ∈ ["classifier", "none", "score", "prediction"] then
    match j.result st with
    | .error e => .error e
    | .ok r =>
      if r ≠ PValue.pnone then .ok (r, st, false)
      else
        let art := j.clf.fit j.params j.X j.Y
        if s = "classifier" then
          match j.setResult st (.artifact art) with
          | .error e => .error e
          | .ok st' => .ok (.artifact art, st', true)
        else if s = "score" then
          match j.setResult st (.score (j.clf.score art j.X j.Y)) with
          | .error e => .error e
          | .ok st' => .ok (.artifact art, st', true)
        else if s = "prediction" then
          match j.setResult st (.pred (j.clf.predict art j.X)) with
          | .error e => .error e
          | .ok st' => .ok (.artifact art, st', true)
        else .ok (.artifact art, st, true)
  else .error "TypeError: store must be one of classifier, score, prediction, or none"

/-- `Job.rerun` (lines 200-206): `self.result = None` (which deletes the
old blob and stores a pickled `None`), then `run()` with its default
policy. -/
def Job.rerun (j : Job) (st : Store) : Except String (PValue × Store × Bool) :=
  match j.setResult st .pnone with
  | .error e => .error e
  | .ok st' => j.run st' (some "classifier")

/-- `Job.__getitem__` (lines 208-213): query the entry afresh and read the
field, raising a `KeyError` naming the key when the field is absent.  When
the entry itself is no longer found, `entry[key]` on `None` raises a
`TypeError` instead (the `except KeyError` clause does not catch it). -/
def Job.getItem (j : Job) (st : Store) (key : String) : Except String Val :=
  match findOne st.coll j.entry with
  | none => .error "TypeError: NoneType is not subscriptable"
  | some e =>
    match docLookup e key with
    | some v => .ok v
    | none => .error ("KeyError: No attribute " ++ key ++ " associated with this job")

/-- `Job.__setitem__` (lines 215-218): upsert `key: value` onto the first
document matching the fingerprint. -/
def Job.setItem (j : Job) (st : Store) (key : String) (v : Val) : Store :=
  { st with coll := updateOne st.coll j.entry key v true }

/-- Modelled external dependency `sklearn.grid_search.IterGrid`: the
Cartesian product of the grid's value lists, in nested iteration order
over the given (fixed) key order, yielding one parameter dictionary per
combination. -/
def iterGrid : List (String × List Int) → List Params
  | [] => [[]]
  | (k, vs) :: rest => vs.flatMap (fun v => (iterGrid rest).map (fun ps => (k, v) :: ps))

/-- Loop body of `JobFactory.job_grid` (lines 79-83): construct a `Job`
for each combination (always performing the registration side effect),
skipping duplicated jobs from the produced list when filtering. -/
def jobGridGo (h : Data → String) (clf : ClfClass) (X Y : Data)
    (filterDuplicates : Bool) : List Params → Store → List Job × Store
  | [], st => ([], st)
  | p :: rest, st =>
    let (j, st') := mkJob h clf X Y p none st
    let (js, st'') := jobGridGo h clf X Y filterDuplicates rest st'
    if filterDuplicates ∧ j.duplicated then (js, st'') else (j :: js, st'')

/-- `JobFactory.job_grid` (lines 57-83): one job per point of the
parameter grid's Cartesian product, with optional duplicate filtering.
The Python generator is lazy; a full pass over it is modelled by the
materialized list. -/
def jobGrid (h : Data → String) (clf : ClfClass) (X Y : Data)
    (grid : List (String × List Int)) (filterDuplicates : Bool) (st : Store) :
    List Job × Store :=
  jobGridGo h clf X Y filterDuplicates (iterGrid grid) st

/-- `JobFactory.clear_jobs` (lines 85-86): drop the collection (the blobs
in GridFS are untouched). -/
def clearJobs (st : Store) : Store := { st with coll := [] }

/-!
## Concrete instances used by witnesses and counterexamples
-/

/-- Identity digest: a concrete instantiation of the abstract md5 model
(collision-free on the byte strings used below). -/
def hashId : Data → String := fun d => d

/-- Concrete classifier class standing in for `LogisticRegression`. -/
def clfA : ClfClass :=
  ⟨"LogisticRegression", fun _ x y => "fitA:" ++ x ++ y,
   fun a _ _ => (a.length : Int), fun a _ => [(a.length : Int)]⟩

/-- Concrete classifier class standing in for `LinearRegression`. -/
def clfB : ClfClass :=
  ⟨"LinearRegression", fun _ x y => "fitB:" ++ x ++ y,
   fun _ _ _ => 0, fun _ _ => []⟩

/-- Concrete job registered first against an empty store. -/
def jobC : Job := (mkJob hashId clfA "x" "y" [("C", 1)] none Store.empty).1

/-- Store state right after that registration. -/
def stC : Store := (mkJob hashId clfA "x" "y" [("C", 1)] none Store.empty).2

/-!
## C1
-/

/-- C1: constructing two Jobs with identical `(callable, data, labels,
params)` against the same initially empty store stores exactly one entry;
the first construction reports `duplicate = false`, the second
`duplicate = true`.  Constructing a Job after changing any single one of
the data, the labels, the parameters, or the callable (the digests,
respectively pickled identities, of the changed inputs differing) yields a
distinct entry — the collection grows to two documents — with
`duplicate = false`. -/
theorem construction_dedup_and_distinct (h : Data → String) (clf clf' : ClfClass)
    (X X' Y Y' : Data) (p p' : Params)
    (hX : h X ≠ h X') (hY : h Y ≠ h Y') (hp : p ≠ p') (hc : clf.id ≠ clf'.id) :
    (mkJob h clf X Y p none Store.empty).1.duplicate = false ∧
    (mkJob h clf X Y p none (mkJob h clf X Y p none Store.empty).2).1.duplicate = true ∧
    (mkJob h clf X Y p none (mkJob h clf X Y p none Store.empty).2).2.coll.length = 1 ∧
    (mkJob h clf X' Y p none (mkJob h clf X Y p none Store.empty).2).1.duplicate = false ∧
    (mkJob h clf X' Y p none (mkJob h clf X Y p none Store.empty).2).2.coll.length = 2 ∧
    (mkJob h clf X Y' p none (mkJob h clf X Y p none Store.empty).2).1.duplicate = false ∧
    (mkJob h clf X Y' p none (mkJob h clf X Y p none Store.empty).2).2.coll.length = 2 ∧
    (mkJob h clf X Y p' none (mkJob h clf X Y p none Store.empty).2).1.duplicate = false ∧
    (mkJob h clf X Y p' none (mkJob h clf X Y p none Store.empty).2).2.coll.length = 2 ∧
    (mkJob h clf' X Y p none (mkJob h clf X Y p none Store.empty).2).1.duplicate = false ∧
    (mkJob h clf' X Y p none (mkJob h clf X Y p none Store.empty).2).2.coll.length = 2 := by
  refine ⟨?_, ?_, ?_, ?_, ?_, ?_, ?_, ?_, ?_, ?_, ?_⟩ <;>
    simp [mkJob, entryFor, Job.duplicate, insertDoc, findOne, docMatches, docLookup,
          Store.empty, hX, hY, hp, hc, Ne.symm hX, Ne.symm hY, Ne.symm hp, Ne.symm hc]

/-- Witness for C1 at concrete inputs. -/
theorem construction_dedup_and_distinct_witness :
    hashId "x" ≠ hashId "x2" ∧ hashId "y" ≠ hashId "y2" ∧
    ([("C", 1)] : Params) ≠ [("C", 2)] ∧ clfA.id ≠ clfB.id ∧
    ((mkJob hashId clfA "x" "y" [("C", 1)] none Store.empty).1.duplicate = false ∧
     (mkJob hashId clfA "x" "y" [("C", 1)] none (mkJob hashId clfA "x" "y" [("C", 1)] none Store.empty).2).1.duplicate = true ∧
     (mkJob hashId clfA "x" "y" [("C", 1)] none (mkJob hashId clfA "x" "y" [("C", 1)] none Store.empty).2).2.coll.length = 1 ∧
     (mkJob hashId clfA "x2" "y" [("C", 1)] none (mkJob hashId clfA "x" "y" [("C", 1)] none Store.empty).2).1.duplicate = false ∧
     (mkJob hashId clfA "x2" "y" [("C", 1)] none (mkJob hashId clfA "x" "y" [("C", 1)] none Store.empty).2).2.coll.length = 2 ∧
     (mkJob hashId clfA "x" "y2" [("C", 1)] none (mkJob hashId clfA "x" "y" [("C", 1)] none Store.empty).2).1.duplicate = false ∧
     (mkJob hashId clfA "x" "y2" [("C", 1)] none (mkJob hashId clfA "x" "y" [("C", 1)] none Store.empty).2).2.coll.length = 2 ∧
     (mkJob hashId clfA "x" "y" [("C", 2)] none (mkJob hashId clfA "x" "y" [("C", 1)] none Store.empty).2).1.duplicate = false ∧
     (mkJob hashId clfA "x" "y" [("C", 2)] none (mkJob hashId clfA "x" "y" [("C", 1)] none Store.empty).2).2.coll.length = 2 ∧
     (mkJob hashId clfB "x" "y" [("C", 1)] none (mkJob hashId clfA "x" "y" [("C", 1)] none Store.empty).2).1.duplicate = false ∧
     (mkJob hashId clfB "x" "y" [("C", 1)] none (mkJob hashId clfA "x" "y" [("C", 1)] none Store.empty).2).2.coll.length = 2) :=
  ⟨by decide, by decide, by decide, by decide,
   construction_dedup_and_distinct hashId clfA clfB "x" "x2" "y" "y2" [("C", 1)] [("C", 2)]
     (by decide) (by decide) (by decide) (by decide)⟩

/-!
## C2
-/

/-- C2: for a freshly registered job there is no stored result; the first
`run` — under every recognized policy — executes the computation and
returns the freshly computed full artifact.  Once a run under a storing
policy (`classifier`, `score` or `prediction`) has happened, any further
`run` under any recognized policy returns the deserialized stored
(possibly reduced) result without executing the computation and without
changing the store, and the same holds for a run through a freshly
constructed duplicate Job instance (the getter queries the store afresh,
there is no in-memory cache).  Hence `run` twice executes the computation
at most once, except under the `none` policy. -/
theorem run_returns_cached_result (h : Data → String) (clf : ClfClass) (X Y : Data)
    (p : Params) (pol pol2 : Option String)
    (hpol : normPolicy pol ∈ ["classifier", "score", "prediction"])
    (hpol2 : normPolicy pol2 ∈ ["classifier", "none", "score", "prediction"]) :
    (mkJob h clf X Y p none Store.empty).1.result (mkJob h clf X Y p none Store.empty).2
      = .ok .pnone ∧
    (∀ q, normPolicy q ∈ ["classifier", "none", "score", "prediction"] →
      ∃ st2, (mkJob h clf X Y p none Store.empty).1.run (mkJob h clf X Y p none Store.empty).2 q
        = .ok (.artifact (clf.fit p X Y), st2, true)) ∧
    (∀ r st2,
      (mkJob h clf X Y p none Store.empty).1.run (mkJob h clf X Y p none Store.empty).2 pol
        = .ok (r, st2, true) →
      ((mkJob h clf X Y p none Store.empty).1.run st2 pol2
         = .ok (if normPolicy pol = "classifier" then PValue.artifact (clf.fit p X Y)
                else if normPolicy pol = "score" then PValue.score (clf.score (clf.fit p X Y) X Y)
                else PValue.pred (clf.predict (clf.fit p X Y) X), st2, false) ∧
       (mkJob h clf X Y p none st2).1.duplicate = true ∧
       (mkJob h clf X Y p none st2).2 = st2 ∧
       (mkJob h clf X Y p none st2).1.run st2 pol2
         = .ok (if normPolicy pol = "classifier" then PValue.artifact (clf.fit p X Y)
                else if normPolicy pol = "score" then PValue.score (clf.score (clf.fit p X Y) X Y)
                else PValue.pred (clf.predict (clf.fit p X Y) X), st2, false))) := by
  have hpol' : normPolicy pol = "classifier" ∨ normPolicy pol = "score" ∨
      normPolicy pol = "prediction" := by simpa using hpol
  refine ⟨?_, ?_, ?_⟩
  · simp [mkJob, entryFor, Job.result, findOne, docMatches, docLookup, Store.empty, insertDoc]
  · intro q hq
    have hq' : normPolicy q = "classifier" ∨ normPolicy q = "none" ∨
        normPolicy q = "score" ∨ normPolicy q = "prediction" := by simpa using hq
    rcases hq' with hq' | hq' | hq' | hq' <;>
      exact ⟨_, by
        simp [mkJob, entryFor, Job.run, Job.result, Job.setResult, Job.delResult,
          findOne, docMatches, docLookup, Store.empty, insertDoc, fsPut, fsGet, fsDelete,
          updateOne, setField, dumps, load, hq']
        rfl⟩
  · intro r st2 heq
    rcases hpol' with hc | hc | hc
    · have hrun : (mkJob h clf X Y p none Store.empty).1.run
          (mkJob h clf X Y p none Store.empty).2 pol
          = .ok (.artifact (clf.fit p X Y),
                 ⟨[[("_x_hash", Val.str (h X)), ("_y_hash", Val.str (h Y)),
                    ("clf", Val.str clf.id), ("params", Val.dict p), ("result", Val.blob 0)]],
                  [(0, PValue.artifact (clf.fit p X Y))], 1⟩, true) := by
        simp [mkJob, entryFor, Job.run, Job.result, Job.setResult, Job.delResult, findOne,
              docMatches, docLookup, Store.empty, insertDoc, fsPut, fsGet, fsDelete,
              updateOne, setField, dumps, load, hc]
      rw [hrun] at heq
      simp only [Except.ok.injEq, Prod.mk.injEq, and_true] at heq
      obtain ⟨hr, hst⟩ := heq
      subst hst
      simp [mkJob, entryFor, Job.run, Job.result, Job.duplicate, findOne, docMatches,
            docLookup, fsGet, load, hpol2, hc]
    · have hrun : (mkJob h clf X Y p none Store.empty).1.run
          (mkJob h clf X Y p none Store.empty).2 pol
          = .ok (.artifact (clf.fit p X Y),
                 ⟨[[("_x_hash", Val.str (h X)), ("_y_hash", Val.str (h Y)),
                    ("clf", Val.str clf.id), ("params", Val.dict p), ("result", Val.blob 0)]],
                  [(0, PValue.score (clf.score (clf.fit p X Y) X Y))], 1⟩, true) := by
        simp [mkJob, entryFor, Job.run, Job.result, Job.setResult, Job.delResult, findOne,
              docMatches, docLookup, Store.empty, insertDoc, fsPut, fsGet, fsDelete,
              updateOne, setField, dumps, load, hc]
      rw [hrun] at heq
      simp only [Except.ok.injEq, Prod.mk.injEq, and_true] at heq
      obtain ⟨hr, hst⟩ := heq
      subst hst
      simp [mkJob, entryFor, Job.run, Job.result, Job.duplicate, findOne, docMatches,
            docLookup, fsGet, load, hpol2, hc]
    · have hrun : (mkJob h clf X Y p none Store.empty).1.run
          (mkJob h clf X Y p none Store.empty).2 pol
          = .ok (.artifact (clf.fit p X Y),
                 ⟨[[("_x_hash", Val.str (h X)), ("_y_hash", Val.str (h Y)),
                    ("clf", Val.str clf.id), ("params", Val.dict p), ("result", Val.blob 0)]],
                  [(0, PValue.pred (clf.predict (clf.fit p X Y) X))], 1⟩, true) := by
        simp [mkJob, entryFor, Job.run, Job.result, Job.setResult, Job.delResult, findOne,
              docMatches, docLookup, Store.empty, insertDoc, fsPut, fsGet, fsDelete,
              updateOne, setField, dumps, load, hc]
      rw [hrun] at heq
      simp only [Except.ok.injEq, Prod.mk.injEq, and_true] at heq
      obtain ⟨hr, hst⟩ := heq
      subst hst
      simp [mkJob, entryFor, Job.run, Job.result, Job.duplicate, findOne, docMatches,
            docLookup, fsGet, load, hpol2, hc]

/-- Witness for C2 at concrete inputs (first run stores the score, the
second run asks for `"CLASSIFIER"`). -/
theorem run_returns_cached_result_witness :
    normPolicy (some "score") ∈ ["classifier", "score", "prediction"] ∧
    normPolicy (some "CLASSIFIER") ∈ ["classifier", "none", "score", "prediction"] ∧
    ((mkJob hashId clfA "x" "y" [("C", 1)] none Store.empty).1.result
        (mkJob hashId clfA "x" "y" [("C", 1)] none Store.empty).2 = .ok .pnone ∧
     (∀ q, normPolicy q ∈ ["classifier", "none", "score", "prediction"] →
       ∃ st2, (mkJob hashId clfA "x" "y" [("C", 1)] none Store.empty).1.run
           (mkJob hashId clfA "x" "y" [("C", 1)] none Store.empty).2 q
         = .ok (.artifact (clfA.fit [("C", 1)] "x" "y"), st2, true)) ∧
     (∀ r st2,
       (mkJob hashId clfA "x" "y" [("C", 1)] none Store.empty).1.run
           (mkJob hashId clfA "x" "y" [("C", 1)] none Store.empty).2 (some "score")
         = .ok (r, st2, true) →
       ((mkJob hashId clfA "x" "y" [("C", 1)] none Store.empty).1.run st2 (some "CLASSIFIER")
          = .ok (if normPolicy (some "score") = "classifier"
                 then PValue.artifact (clfA.fit [("C", 1)] "x" "y")
                 else if normPolicy (some "score") = "score"
                 then PValue.score (clfA.score (clfA.fit [("C", 1)] "x" "y") "x" "y")
                 else PValue.pred (clfA.predict (clfA.fit [("C", 1)] "x" "y") "x"), st2, false) ∧
        (mkJob hashId clfA "x" "y" [("C", 1)] none st2).1.duplicate = true ∧
        (mkJob hashId clfA "x" "y" [("C", 1)] none st2).2 = st2 ∧
        (mkJob hashId clfA "x" "y" [("C", 1)] none st2).1.run st2 (some "CLASSIFIER")
          = .ok (if normPolicy (some "score") = "classifier"
                 then PValue.artifact (clfA.fit [("C", 1)] "x" "y")
                 else if normPolicy (some "score") = "score"
                 then PValue.score (clfA.score (clfA.fit [("C", 1)] "x" "y") "x" "y")
                 else PValue.pred (clfA.predict (clfA.fit [("C", 1)] "x" "y") "x"), st2, false)))) :=
  ⟨by decide, by decide,
   run_returns_cached_result hashId clfA "x" "y" [("C", 1)] (some "score") (some "CLASSIFIER")
     (by decide) (by decide)⟩

/-!
## C3
-/

/-- C3: `rerun` always re-executes the computation (the flag in the
triple records that the fit ran), stores the new result under the default
`classifier` policy, and — when a cached result existed — the blob that
previously held the result is deleted first and is no longer retrievable
from the blob store afterwards. -/
theorem rerun_recomputes (h : Data → String) (clf : ClfClass) (X Y : Data) (p : Params) :
    (∃ st', (mkJob h clf X Y p none Store.empty).1.rerun (mkJob h clf X Y p none Store.empty).2
        = .ok (.artifact (clf.fit p X Y), st', true) ∧
      (mkJob h clf X Y p none Store.empty).1.result st' = .ok (.artifact (clf.fit p X Y))) ∧
    (∀ r st2, (mkJob h clf X Y p none Store.empty).1.run
        (mkJob h clf X Y p none Store.empty).2 (some "classifier") = .ok (r, st2, true) →
      ∃ st3,
        (mkJob h clf X Y p none Store.empty).1.rerun st2
          = .ok (.artifact (clf.fit p X Y), st3, true) ∧
        (mkJob h clf X Y p none Store.empty).1.result st3 = .ok (.artifact (clf.fit p X Y)) ∧
        (∀ e rid, findOne st2.coll (mkJob h clf X Y p none Store.empty).1.entry = some e →
          docLookup e "result" = some (.blob rid) → fsGet st3 rid = none)) := by
  constructor
  · exact ⟨_, by
      simp [mkJob, entryFor, Job.rerun, Job.run, Job.result, Job.setResult, Job.delResult,
        findOne, docMatches, docLookup, Store.empty, insertDoc, fsPut, fsGet, fsDelete,
        updateOne, setField, dumps, load]
      rfl, by
      simp [mkJob, entryFor, Job.rerun, Job.run, Job.result, Job.setResult, Job.delResult,
        findOne, docMatches, docLookup, Store.empty, insertDoc, fsPut, fsGet, fsDelete,
        updateOne, setField, dumps, load]⟩
  · intro r st2 heq
    have hrun : (mkJob h clf X Y p none Store.empty).1.run
        (mkJob h clf X Y p none Store.empty).2 (some "classifier")
        = .ok (.artifact (clf.fit p X Y),
               ⟨[[("_x_hash", Val.str (h X)), ("_y_hash", Val.str (h Y)),
                  ("clf", Val.str clf.id), ("params", Val.dict p), ("result", Val.blob 0)]],
                [(0, PValue.artifact (clf.fit p X Y))], 1⟩, true) := by
      simp [mkJob, entryFor, Job.run, Job.result, Job.setResult, Job.delResult, findOne,
            docMatches, docLookup, Store.empty, insertDoc, fsPut, fsGet, fsDelete,
            updateOne, setField, dumps, load, normPolicy, strLower]
    rw [hrun] at heq
    simp only [Except.ok.injEq, Prod.mk.injEq, and_true] at heq
    obtain ⟨hr, hst⟩ := heq
    subst hst
    refine ⟨⟨[[("_x_hash", Val.str (h X)), ("_y_hash", Val.str (h Y)),
               ("clf", Val.str clf.id), ("params", Val.dict p), ("result", Val.blob 2)]],
             [(2, PValue.artifact (clf.fit p X Y))], 3⟩, ?_, ?_, ?_⟩
    · simp [mkJob, entryFor, Job.rerun, Job.run, Job.result, Job.setResult, Job.delResult,
        findOne, docMatches, docLookup, fsPut, fsGet, fsDelete, updateOne, setField,
        dumps, load, normPolicy, strLower]
    · simp [mkJob, entryFor, Job.result, findOne, docMatches, docLookup, fsGet, load]
    · intro e rid he hrid
      simp [mkJob, entryFor, findOne, docMatches, docLookup] at he
      subst he
      simp [docLookup] at hrid
      subst hrid
      simp [fsGet]

/-- Witness for C3 at concrete inputs. -/
theorem rerun_recomputes_witness :
    (∃ st', (mkJob hashId clfA "x" "y" [("C", 1)] none Store.empty).1.rerun
        (mkJob hashId clfA "x" "y" [("C", 1)] none Store.empty).2
        = .ok (.artifact (clfA.fit [("C", 1)] "x" "y"), st', true) ∧
      (mkJob hashId clfA "x" "y" [("C", 1)] none Store.empty).1.result st'
        = .ok (.artifact (clfA.fit [("C", 1)] "x" "y"))) ∧
    (∀ r st2, (mkJob hashId clfA "x" "y" [("C", 1)] none Store.empty).1.run
        (mkJob hashId clfA "x" "y" [("C", 1)] none Store.empty).2 (some "classifier")
        = .ok (r, st2, true) →
      ∃ st3,
        (mkJob hashId clfA "x" "y" [("C", 1)] none Store.empty).1.rerun st2
          = .ok (.artifact (clfA.fit [("C", 1)] "x" "y"), st3, true) ∧
        (mkJob hashId clfA "x" "y" [("C", 1)] none Store.empty).1.result st3
          = .ok (.artifact (clfA.fit [("C", 1)] "x" "y")) ∧
        (∀ e rid, findOne st2.coll (mkJob hashId clfA "x" "y" [("C", 1)] none Store.empty).1.entry
            = some e →
          docLookup e "result" = some (.blob rid) → fsGet st3 rid = none)) :=
  rerun_recomputes hashId clfA "x" "y" [("C", 1)]

/-!
## C4
-/

/-- C4: run with no prior stored result, per policy: `classifier` stores
the whole artifact (a later result read returns it); `score` stores only
the scalar score, so a later result read returns that scalar — by
construction not an artifact; `prediction` stores only the prediction
vector; `none` leaves the store exactly unchanged, so the result stays
absent and the very same (recomputing) run repeats on every subsequent
call. -/
theorem run_store_policies (h : Data → String) (clf : ClfClass) (X Y : Data) (p : Params) :
    (∀ r st2, (mkJob h clf X Y p none Store.empty).1.run
        (mkJob h clf X Y p none Store.empty).2 (some "classifier") = .ok (r, st2, true) →
      (mkJob h clf X Y p none Store.empty).1.result st2 = .ok (.artifact (clf.fit p X Y))) ∧
    (∀ r st2, (mkJob h clf X Y p none Store.empty).1.run
        (mkJob h clf X Y p none Store.empty).2 (some "score") = .ok (r, st2, true) →
      (mkJob h clf X Y p none Store.empty).1.result st2
          = .ok (.score (clf.score (clf.fit p X Y) X Y)) ∧
        ∀ a, PValue.score (clf.score (clf.fit p X Y) X Y) ≠ .artifact a) ∧
    (∀ r st2, (mkJob h clf X Y p none Store.empty).1.run
        (mkJob h clf X Y p none Store.empty).2 (some "prediction") = .ok (r, st2, true) →
      (mkJob h clf X Y p none Store.empty).1.result st2
        = .ok (.pred (clf.predict (clf.fit p X Y) X))) ∧
    ((mkJob h clf X Y p none Store.empty).1.run
        (mkJob h clf X Y p none Store.empty).2 (some "none")
      = .ok (.artifact (clf.fit p X Y), (mkJob h clf X Y p none Store.empty).2, true) ∧
     (mkJob h clf X Y p none Store.empty).1.result (mkJob h clf X Y p none Store.empty).2
      = .ok .pnone) := by
  refine ⟨?_, ?_, ?_, ?_, ?_⟩
  · intro r st2 heq
    have hrun : (mkJob h clf X Y p none Store.empty).1.run
        (mkJob h clf X Y p none Store.empty).2 (some "classifier")
        = .ok (.artifact (clf.fit p X Y),
               ⟨[[("_x_hash", Val.str (h X)), ("_y_hash", Val.str (h Y)),
                  ("clf", Val.str clf.id), ("params", Val.dict p), ("result", Val.blob 0)]],
                [(0, PValue.artifact (clf.fit p X Y))], 1⟩, true) := by
      simp [mkJob, entryFor, Job.run, Job.result, Job.setResult, Job.delResult, findOne,
            docMatches, docLookup, Store.empty, insertDoc, fsPut, fsGet, fsDelete,
            updateOne, setField, dumps, load, normPolicy, strLower]
    rw [hrun] at heq
    simp only [Except.ok.injEq, Prod.mk.injEq, and_true] at heq
    obtain ⟨hr, hst⟩ := heq
    subst hst
    simp [mkJob, entryFor, Job.result, findOne, docMatches, docLookup, fsGet, load]
  · intro r st2 heq
    have hrun : (mkJob h clf X Y p none Store.empty).1.run
        (mkJob h clf X Y p none Store.empty).2 (some "score")
        = .ok (.artifact (clf.fit p X Y),
               ⟨[[("_x_hash", Val.str (h X)), ("_y_hash", Val.str (h Y)),
                  ("clf", Val.str clf.id), ("params", Val.dict p), ("result", Val.blob 0)]],
                [(0, PValue.score (clf.score (clf.fit p X Y) X Y))], 1⟩, true) := by
      simp [mkJob, entryFor, Job.run, Job.result, Job.setResult, Job.delResult, findOne,
            docMatches, docLookup, Store.empty, insertDoc, fsPut, fsGet, fsDelete,
            updateOne, setField, dumps, load, normPolicy, strLower]
    rw [hrun] at heq
    simp only [Except.ok.injEq, Prod.mk.injEq, and_true] at heq
    obtain ⟨hr, hst⟩ := heq
    subst hst
    simp [mkJob, entryFor, Job.result, findOne, docMatches, docLookup, fsGet, load]
  · intro r st2 heq
    have hrun : (mkJob h clf X Y p none Store.empty).1.run
        (mkJob h clf X Y p none Store.empty).2 (some "prediction")
        = .ok (.artifact (clf.fit p X Y),
               ⟨[[("_x_hash", Val.str (h X)), ("_y_hash", Val.str (h Y)),
                  ("clf", Val.str clf.id), ("params", Val.dict p), ("result", Val.blob 0)]],
                [(0, PValue.pred (clf.predict (clf.fit p X Y) X))], 1⟩, true) := by
      simp [mkJob, entryFor, Job.run, Job.result, Job.setResult, Job.delResult, findOne,
            docMatches, docLookup, Store.empty, insertDoc, fsPut, fsGet, fsDelete,
            updateOne, setField, dumps, load, normPolicy, strLower]
    rw [hrun] at heq
    simp only [Except.ok.injEq, Prod.mk.injEq, and_true] at heq
    obtain ⟨hr, hst⟩ := heq
    subst hst
    simp [mkJob, entryFor, Job.result, findOne, docMatches, docLookup, fsGet, load]
  · simp [mkJob, entryFor, Job.run, Job.result, findOne, docMatches, docLookup,
      Store.empty, insertDoc, normPolicy, strLower]
  · simp [mkJob, entryFor, Job.result, findOne, docMatches, docLookup, Store.empty, insertDoc]

/-- Witness for C4 at concrete inputs. -/
theorem run_store_policies_witness :
    (∀ r st2, (mkJob hashId clfA "x" "y" [("C", 1)] none Store.empty).1.run
        (mkJob hashId clfA "x" "y" [("C", 1)] none Store.empty).2 (some "classifier")
        = .ok (r, st2, true) →
      (mkJob hashId clfA "x" "y" [("C", 1)] none Store.empty).1.result st2
        = .ok (.artifact (clfA.fit [("C", 1)] "x" "y"))) ∧
    (∀ r st2, (mkJob hashId clfA "x" "y" [("C", 1)] none Store.empty).1.run
        (mkJob hashId clfA "x" "y" [("C", 1)] none Store.empty).2 (some "score")
        = .ok (r, st2, true) →
      (mkJob hashId clfA "x" "y" [("C", 1)] none Store.empty).1.result st2
          = .ok (.score (clfA.score (clfA.fit [("C", 1)] "x" "y") "x" "y")) ∧
        ∀ a, PValue.score (clfA.score (clfA.fit [("C", 1)] "x" "y") "x" "y") ≠ .artifact a) ∧
    (∀ r st2, (mkJob hashId clfA "x" "y" [("C", 1)] none Store.empty).1.run
        (mkJob hashId clfA "x" "y" [("C", 1)] none Store.empty).2 (some "prediction")
        = .ok (r, st2, true) →
      (mkJob hashId clfA "x" "y" [("C", 1)] none Store.empty).1.result st2
        = .ok (.pred (clfA.predict (clfA.fit [("C", 1)] "x" "y") "x"))) ∧
    ((mkJob hashId clfA "x" "y" [("C", 1)] none Store.empty).1.run
        (mkJob hashId clfA "x" "y" [("C", 1)] none Store.empty).2 (some "none")
      = .ok (.artifact (clfA.fit [("C", 1)] "x" "y"),
             (mkJob hashId clfA "x" "y" [("C", 1)] none Store.empty).2, true) ∧
     (mkJob hashId clfA "x" "y" [("C", 1)] none Store.empty).1.result
        (mkJob hashId clfA "x" "y" [("C", 1)] none Store.empty).2 = .ok .pnone) :=
  run_store_policies hashId clfA "x" "y" [("C", 1)]

/-!
## C5
-/

/-- C5: starting from a state holding a stored result blob `rid`, each of
the three result-mutating operations deletes the old blob: the setter
leaves the blob store holding exactly the one new blob (old one gone, not
leaked) and the entry pointing at it; the deleter empties the blob store;
and `rerun` leaves the old blob unretrievable.  The delete happens before
the new write: the new blob is stored under the next fresh identifier
while the old identifier is gone from the blob store. -/
theorem result_overwrite_deletes_old_blob (h : Data → String) (clf : ClfClass)
    (X Y : Data) (p : Params) :
    ∀ r st2, (mkJob h clf X Y p none Store.empty).1.run
        (mkJob h clf X Y p none Store.empty).2 (some "classifier") = .ok (r, st2, true) →
      ∀ e rid, findOne st2.coll (mkJob h clf X Y p none Store.empty).1.entry = some e →
        docLookup e "result" = some (.blob rid) →
        ((∀ w, ∃ st3, (mkJob h clf X Y p none Store.empty).1.setResult st2 w = .ok st3 ∧
            fsGet st3 rid = none ∧ st3.fs = [(st2.nextId, dumps w)] ∧
            (mkJob h clf X Y p none Store.empty).1.result st3 = .ok (load w)) ∧
         (∃ st3, (mkJob h clf X Y p none Store.empty).1.delResult st2 = .ok st3 ∧
            fsGet st3 rid = none ∧ st3.fs = []) ∧
         (∀ v' st3 c, (mkJob h clf X Y p none Store.empty).1.rerun st2 = .ok (v', st3, c) →
            fsGet st3 rid = none)) := by
  intro r st2 heq
  have hrun : (mkJob h clf X Y p none Store.empty).1.run
      (mkJob h clf X Y p none Store.empty).2 (some "classifier")
      = .ok (.artifact (clf.fit p X Y),
             ⟨[[("_x_hash", Val.str (h X)), ("_y_hash", Val.str (h Y)),
                ("clf", Val.str clf.id), ("params", Val.dict p), ("result", Val.blob 0)]],
              [(0, PValue.artifact (clf.fit p X Y))], 1⟩, true) := by
    simp [mkJob, entryFor, Job.run, Job.result, Job.setResult, Job.delResult, findOne,
          docMatches, docLookup, Store.empty, insertDoc, fsPut, fsGet, fsDelete,
          updateOne, setField, dumps, load, normPolicy, strLower]
  rw [hrun] at heq
  simp only [Except.ok.injEq, Prod.mk.injEq, and_true] at heq
  obtain ⟨hr, hst⟩ := heq
  subst hst
  intro e rid he hrid
  simp [mkJob, entryFor, findOne, docMatches, docLookup] at he
  subst he
  simp [docLookup] at hrid
  subst hrid
  refine ⟨?_, ?_, ?_⟩
  · intro w
    refine ⟨⟨[[("_x_hash", Val.str (h X)), ("_y_hash", Val.str (h Y)),
               ("clf", Val.str clf.id), ("params", Val.dict p), ("result", Val.blob 1)]],
             [(1, w)], 2⟩, ?_, ?_, ?_, ?_⟩
    · simp [mkJob, entryFor, Job.setResult, Job.delResult, findOne, docMatches, docLookup,
        fsPut, fsDelete, updateOne, setField, dumps]
    · simp [fsGet]
    · simp [dumps]
    · simp [mkJob, entryFor, Job.result, findOne, docMatches, docLookup, fsGet, load]
  · refine ⟨⟨[[("_x_hash", Val.str (h X)), ("_y_hash", Val.str (h Y)),
              ("clf", Val.str clf.id), ("params", Val.dict p), ("result", Val.blob 0)]],
            [], 1⟩, ?_, ?_, ?_⟩
    · simp [mkJob, entryFor, Job.delResult, findOne, docMatches, docLookup, fsDelete]
    · simp [fsGet]
    · rfl
  · intro v' st3 c heq2
    have hrr : (mkJob h clf X Y p none Store.empty).1.rerun
        ⟨[[("_x_hash", Val.str (h X)), ("_y_hash", Val.str (h Y)),
           ("clf", Val.str clf.id), ("params", Val.dict p), ("result", Val.blob 0)]],
         [(0, PValue.artifact (clf.fit p X Y))], 1⟩
        = .ok (.artifact (clf.fit p X Y),
               ⟨[[("_x_hash", Val.str (h X)), ("_y_hash", Val.str (h Y)),
                  ("clf", Val.str clf.id), ("params", Val.dict p), ("result", Val.blob 2)]],
                [(2, PValue.artifact (clf.fit p X Y))], 3⟩, true) := by
      simp [mkJob, entryFor, Job.rerun, Job.run, Job.result, Job.setResult, Job.delResult,
        findOne, docMatches, docLookup, fsPut, fsGet, fsDelete, updateOne, setField,
        dumps, load, normPolicy, strLower]
    rw [hrr] at heq2
    simp only [Except.ok.injEq, Prod.mk.injEq] at heq2
    obtain ⟨-, hst3, -⟩ := heq2
    subst hst3
    simp [fsGet]

/-- Witness for C5 at concrete inputs: the state right after the
concrete job stored its artifact as blob 0. -/
theorem result_overwrite_deletes_old_blob_witness :
    (∀ w, ∃ st3,
        (mkJob hashId clfA "x" "y" [("C", 1)] none Store.empty).1.setResult
          (⟨[[("_x_hash", Val.str "x"), ("_y_hash", Val.str "y"),
              ("clf", Val.str "LogisticRegression"), ("params", Val.dict [("C", 1)]),
              ("result", Val.blob 0)]],
            [(0, PValue.artifact "fitA:xy")], 1⟩ : Store) w = .ok st3 ∧
        fsGet st3 0 = none ∧
        st3.fs = [((⟨[[("_x_hash", Val.str "x"), ("_y_hash", Val.str "y"),
              ("clf", Val.str "LogisticRegression"), ("params", Val.dict [("C", 1)]),
              ("result", Val.blob 0)]],
            [(0, PValue.artifact "fitA:xy")], 1⟩ : Store).nextId, dumps w)] ∧
        (mkJob hashId clfA "x" "y" [("C", 1)] none Store.empty).1.result st3
          = .ok (load w)) ∧
    (∃ st3, (mkJob hashId clfA "x" "y" [("C", 1)] none Store.empty).1.delResult
          (⟨[[("_x_hash", Val.str "x"), ("_y_hash", Val.str "y"),
              ("clf", Val.str "LogisticRegression"), ("params", Val.dict [("C", 1)]),
              ("result", Val.blob 0)]],
            [(0, PValue.artifact "fitA:xy")], 1⟩ : Store) = .ok st3 ∧
        fsGet st3 0 = none ∧ st3.fs = []) ∧
    (∀ v' st3 c, (mkJob hashId clfA "x" "y" [("C", 1)] none Store.empty).1.rerun
          (⟨[[("_x_hash", Val.str "x"), ("_y_hash", Val.str "y"),
              ("clf", Val.str "LogisticRegression"), ("params", Val.dict [("C", 1)]),
              ("result", Val.blob 0)]],
            [(0, PValue.artifact "fitA:xy")], 1⟩ : Store) = .ok (v', st3, c) →
        fsGet st3 0 = none) :=
  result_overwrite_deletes_old_blob hashId clfA "x" "y" [("C", 1)]
    (.artifact "fitA:xy")
    (⟨[[("_x_hash", Val.str "x"), ("_y_hash", Val.str "y"),
        ("clf", Val.str "LogisticRegression"), ("params", Val.dict [("C", 1)]),
        ("result", Val.blob 0)]],
      [(0, PValue.artifact "fitA:xy")], 1⟩ : Store) (by decide)
    [("_x_hash", Val.str "x"), ("_y_hash", Val.str "y"),
     ("clf", Val.str "LogisticRegression"), ("params", Val.dict [("C", 1)]),
     ("result", Val.blob 0)] 0 (by decide) (by decide)

/-!
## C6
-/

/-- C6 counterexample: a Job constructed *without* a label, against a
store whose only entry is a *labeled* one with the same data, labels-data,
callable and parameters, is reported as a duplicate and inserts nothing —
the MongoDB query matches by containment, so the absence of `label` in the
query does not exclude entries that do carry a `label` field.  This
contradicts the claim that a label-less Job matches only entries in which
the label field is absent entirely. -/
theorem labelless_job_matches_labeled_entry :
    (mkJob hashId clfA "x" "y" [("C", 1)] none
       (mkJob hashId clfA "x" "y" [("C", 1)] (some "lab") Store.empty).2).1.duplicate = true ∧
    (mkJob hashId clfA "x" "y" [("C", 1)] none
       (mkJob hashId clfA "x" "y" [("C", 1)] (some "lab") Store.empty).2).2.coll.length = 1 ∧
    docLookup (mkJob hashId clfA "x" "y" [("C", 1)] (some "lab") Store.empty).1.entry "label"
      = some (Val.str "lab") := by decide

/-- C6 (amended): the label is part of the identity exactly when it is
provided, in the following containment sense: two Jobs with identical
data, labels-data, callable and parameters but different labels map to
distinct entries; a *labeled* Job matches only entries carrying exactly
that label (in particular not a label-less entry); but a Job constructed
*without* a label queries by the four fingerprint fields alone, so it
matches any entry with those fields — an entry with an extra `label`
field included. -/
theorem label_part_of_identity (h : Data → String) (clf : ClfClass) (X Y : Data)
    (p : Params) (a b : String) (hab : a ≠ b) :
    (mkJob h clf X Y p (some a) Store.empty).1.duplicate = false ∧
    (mkJob h clf X Y p (some b) (mkJob h clf X Y p (some a) Store.empty).2).1.duplicate
      = false ∧
    (mkJob h clf X Y p (some b) (mkJob h clf X Y p (some a) Store.empty).2).2.coll.length
      = 2 ∧
    (mkJob h clf X Y p (some a) (mkJob h clf X Y p none Store.empty).2).1.duplicate = false ∧
    (mkJob h clf X Y p (some a) (mkJob h clf X Y p none Store.empty).2).2.coll.length = 2 ∧
    (mkJob h clf X Y p none (mkJob h clf X Y p (some a) Store.empty).2).1.duplicate = true ∧
    (mkJob h clf X Y p none (mkJob h clf X Y p (some a) Store.empty).2).2.coll.length = 1 := by
  refine ⟨?_, ?_, ?_, ?_, ?_, ?_, ?_⟩ <;>
    simp [mkJob, entryFor, Job.duplicate, insertDoc, findOne, docMatches, docLookup,
          Store.empty, hab, Ne.symm hab]

/-- Witness for the amended C6 at concrete inputs. -/
theorem label_part_of_identity_witness :
    ("a" : String) ≠ "b" ∧
    ((mkJob hashId clfA "x" "y" [("C", 1)] (some "a") Store.empty).1.duplicate = false ∧
     (mkJob hashId clfA "x" "y" [("C", 1)] (some "b")
        (mkJob hashId clfA "x" "y" [("C", 1)] (some "a") Store.empty).2).1.duplicate = false ∧
     (mkJob hashId clfA "x" "y" [("C", 1)] (some "b")
        (mkJob hashId clfA "x" "y" [("C", 1)] (some "a") Store.empty).2).2.coll.length = 2 ∧
     (mkJob hashId clfA "x" "y" [("C", 1)] (some "a")
        (mkJob hashId clfA "x" "y" [("C", 1)] none Store.empty).2).1.duplicate = false ∧
     (mkJob hashId clfA "x" "y" [("C", 1)] (some "a")
        (mkJob hashId clfA "x" "y" [("C", 1)] none Store.empty).2).2.coll.length = 2 ∧
     (mkJob hashId clfA "x" "y" [("C", 1)] none
        (mkJob hashId clfA "x" "y" [("C", 1)] (some "a") Store.empty).2).1.duplicate = true ∧
     (mkJob hashId clfA "x" "y" [("C", 1)] none
        (mkJob hashId clfA "x" "y" [("C", 1)] (some "a") Store.empty).2).2.coll.length = 1) :=
  ⟨by decide, label_part_of_identity hashId clfA "x" "y" [("C", 1)] "a" "b" (by decide)⟩

/-!
## C7
-/

/-- Unfolding of label-less construction: the fingerprint is `entryFor`,
the duplicate flag is the query result, and the entry is inserted exactly
when no match existed. -/
lemma mkJob_none_eq (h : Data → String) (clf : ClfClass) (X Y : Data) (p : Params)
    (st : Store) :
    mkJob h clf X Y p none st
      = ({ clf := clf, X := X, Y := Y, params := p, entry := entryFor h clf X Y p,
           duplicated := (findOne st.coll (entryFor h clf X Y p)).isSome },
         if (findOne st.coll (entryFor h clf X Y p)).isSome then st
         else { st with coll := insertDoc st.coll (entryFor h clf X Y p) }) := by
  simp [mkJob]

/-- Matching one grid fingerprint against another comes down to equality
of the parameter dictionaries (the other three fields always agree). -/
lemma docMatches_entryFor (h : Data → String) (clf : ClfClass) (X Y : Data)
    (q p : Params) :
    docMatches (entryFor h clf X Y q) (entryFor h clf X Y p) = true ↔ q = p := by
  by_cases hqp : q = p <;> simp [entryFor, docMatches, docLookup, hqp]

/-- In a collection holding exactly the grid fingerprints of `qs`, the
fingerprint of `p` is found precisely when `p ∈ qs`. -/
lemma findOne_entryFor_map (h : Data → String) (clf : ClfClass) (X Y : Data)
    (qs : List Params) (p : Params) :
    (findOne (qs.map (entryFor h clf X Y)) (entryFor h clf X Y p)).isSome = true ↔ p ∈ qs := by
  induction qs with
  | nil => simp [findOne]
  | cons q rest ih =>
    by_cases hq : q = p
    · subst hq
      simp [findOne, (docMatches_entryFor h clf X Y q q).mpr rfl]
    · have hm : docMatches (entryFor h clf X Y q) (entryFor h clf X Y p) = false := by
        rw [Bool.eq_false_iff]
        intro hb
        exact hq ((docMatches_entryFor h clf X Y q p).mp hb)
      simp [findOne, hm, ih, hq]
      intro hpq
      exact absurd hpq.symm hq

/-- First pass of the grid loop over pairwise-distinct fresh combinations:
every construction registers a new entry, nothing is filtered, and the
final collection holds exactly the previous fingerprints followed by the
new ones. -/
lemma jobGridGo_fresh (h : Data → String) (clf : ClfClass) (X Y : Data) :
    ∀ (ps qs : List Params) (fs : List (Nat × PValue)) (nid : Nat),
      ps.Nodup → (∀ x ∈ ps, x ∉ qs) →
      (jobGridGo h clf X Y true ps ⟨qs.map (entryFor h clf X Y), fs, nid⟩).1.length
          = ps.length ∧
      (jobGridGo h clf X Y true ps ⟨qs.map (entryFor h clf X Y), fs, nid⟩).2
          = ⟨(qs ++ ps).map (entryFor h clf X Y), fs, nid⟩
  | [], qs, fs, nid, _, _ => by simp [jobGridGo]
  | p :: rest, qs, fs, nid, hnd, hdisj => by
    have hfind : (findOne (qs.map (entryFor h clf X Y)) (entryFor h clf X Y p)).isSome
        = false := by
      rw [Bool.eq_false_iff]
      intro hb
      exact hdisj p (List.mem_cons_self p rest) ((findOne_entryFor_map h clf X Y qs p).mp hb)
    have hrec := jobGridGo_fresh h clf X Y rest (qs ++ [p]) fs nid
      (List.Nodup.of_cons hnd)
      (by
        intro x hx
        simp only [List.mem_append, List.mem_singleton]
        rintro (hxq | hxp)
        · exact hdisj x (List.mem_cons_of_mem p hx) hxq
        · exact (List.nodup_cons.mp hnd).1 (hxp ▸ hx))
    simp only [List.map_append, List.map_cons, List.map_nil] at hrec
    have hgo : jobGridGo h clf X Y true (p :: rest) ⟨qs.map (entryFor h clf X Y), fs, nid⟩
        = ((⟨clf, X, Y, p, entryFor h clf X Y p, false⟩ : Job) ::
            (jobGridGo h clf X Y true rest
              ⟨qs.map (entryFor h clf X Y) ++ [entryFor h clf X Y p], fs, nid⟩).1,
           (jobGridGo h clf X Y true rest
              ⟨qs.map (entryFor h clf X Y) ++ [entryFor h clf X Y p], fs, nid⟩).2) := by
      simp [jobGridGo, mkJob_none_eq, hfind, insertDoc]
    rw [hgo]
    constructor
    · simp [hrec.1]
    · rw [hrec.2]
      simp

/-- Second pass of the grid loop: when every combination is already
registered, every job is a duplicate, nothing is produced and the store is
unchanged. -/
lemma jobGridGo_all_dup (h : Data → String) (clf : ClfClass) (X Y : Data) :
    ∀ (ps : List Params) (st : Store),
      (∀ x ∈ ps, (findOne st.coll (entryFor h clf X Y x)).isSome = true) →
      jobGridGo h clf X Y true ps st = ([], st)
  | [], st, _ => by simp [jobGridGo]
  | p :: rest, st, hall => by
    have hp := hall p (List.mem_cons_self p rest)
    have hrec := jobGridGo_all_dup h clf X Y rest st
      (fun x hx => hall x (List.mem_cons_of_mem p hx))
    simp [jobGridGo, mkJob_none_eq, hp, hrec]

/-- With filtering off the loop produces one job per combination. -/
lemma jobGridGo_nofilter (h : Data → String) (clf : ClfClass) (X Y : Data) :
    ∀ (ps : List Params) (st : Store),
      (jobGridGo h clf X Y false ps st).1.length = ps.length
  | [], st => by simp [jobGridGo]
  | p :: rest, st => by
    simp [jobGridGo, jobGridGo_nofilter h clf X Y rest]

/-- The Cartesian product has one point per choice of value in each list. -/
lemma iterGrid_length : ∀ grid : List (String × List Int),
    (iterGrid grid).length = (grid.map (fun kv => kv.2.length)).prod
  | [] => by simp [iterGrid]
  | (k, vs) :: rest => by
    have hconst : (List.length ∘ fun v : Int => (iterGrid rest).map (fun ps => (k, v) :: ps))
        = fun _ => (iterGrid rest).length := by
      funext v
      simp
    simp [iterGrid, List.length_flatMap, hconst, List.map_const', List.sum_replicate,
      smul_eq_mul, iterGrid_length rest]

/-- C7: over a parameter grid whose Cartesian product has no repeated
combination, a pass against a fresh (empty) store produces one job per
point of the product — count equal to the product of the value-list
lengths — and registers an entry for every combination; a second
filtering pass over the same grid against the resulting store produces
zero jobs and leaves the store unchanged; and with `filter_duplicates`
off, every combination is produced regardless of the store. -/
theorem job_grid_counts (h : Data → String) (clf : ClfClass) (X Y : Data)
    (grid : List (String × List Int)) (hnd : (iterGrid grid).Nodup) :
    (iterGrid grid).length = (grid.map (fun kv => kv.2.length)).prod ∧
    (jobGrid h clf X Y grid true Store.empty).1.length
      = (grid.map (fun kv => kv.2.length)).prod ∧
    jobGrid h clf X Y grid true (jobGrid h clf X Y grid true Store.empty).2
      = ([], (jobGrid h clf X Y grid true Store.empty).2) ∧
    (∀ x ∈ iterGrid grid,
      (findOne (jobGrid h clf X Y grid true Store.empty).2.coll
        (entryFor h clf X Y x)).isSome = true) ∧
    (∀ st, (jobGrid h clf X Y grid false st).1.length = (iterGrid grid).length) := by
  have hbase := jobGridGo_fresh h clf X Y (iterGrid grid) [] [] 0 hnd (by simp)
  simp only [List.map_nil, List.nil_append] at hbase
  have hstore : (jobGrid h clf X Y grid true Store.empty).2
      = ⟨(iterGrid grid).map (entryFor h clf X Y), [], 0⟩ := by
    simpa [jobGrid, Store.empty] using hbase.2
  refine ⟨iterGrid_length grid, ?_, ?_, ?_, ?_⟩
  · calc (jobGrid h clf X Y grid true Store.empty).1.length
        = (iterGrid grid).length := by simpa [jobGrid, Store.empty] using hbase.1
      _ = _ := iterGrid_length grid
  · rw [hstore]
    simp only [jobGrid]
    exact jobGridGo_all_dup h clf X Y (iterGrid grid) _
      (fun x hx => (findOne_entryFor_map h clf X Y (iterGrid grid) x).mpr hx)
  · intro x hx
    rw [hstore]
    exact (findOne_entryFor_map h clf X Y (iterGrid grid) x).mpr hx
  · intro st
    simpa [jobGrid] using jobGridGo_nofilter h clf X Y (iterGrid grid) st

/-- Witness for C7 at a concrete three-point grid. -/
theorem job_grid_counts_witness :
    (iterGrid [("C", [1, 10, 100])]).Nodup ∧
    ((iterGrid [("C", [1, 10, 100])]).length
        = ([("C", [1, 10, 100])].map (fun kv => kv.2.length)).prod ∧
     (jobGrid hashId clfA "x" "y" [("C", [1, 10, 100])] true Store.empty).1.length
        = ([("C", [1, 10, 100])].map (fun kv => kv.2.length)).prod ∧
     jobGrid hashId clfA "x" "y" [("C", [1, 10, 100])] true
         (jobGrid hashId clfA "x" "y" [("C", [1, 10, 100])] true Store.empty).2
       = ([], (jobGrid hashId clfA "x" "y" [("C", [1, 10, 100])] true Store.empty).2) ∧
     (∀ x ∈ iterGrid [("C", [1, 10, 100])],
       (findOne (jobGrid hashId clfA "x" "y" [("C", [1, 10, 100])] true Store.empty).2.coll
         (entryFor hashId clfA "x" "y" x)).isSome = true) ∧
     (∀ st, (jobGrid hashId clfA "x" "y" [("C", [1, 10, 100])] false st).1.length
        = (iterGrid [("C", [1, 10, 100])]).length)) :=
  ⟨by decide, job_grid_counts hashId clfA "x" "y" [("C", [1, 10, 100])] (by decide)⟩

/-!
## C8 and C10
-/

/-- The result getter only ever raises the GridFS missing-file error. -/
lemma result_error_eq (j : Job) (st : Store) (e : String) :
    j.result st = .error e → e = "NoFile" := by
  intro he
  unfold Job.result at he
  split at he
  · exact Except.noConfusion he
  · split at he
    · exact Except.noConfusion he
    · split at he
      · exact Except.noConfusion he
      · exact (Except.error.inj he).symm
    · exact (Except.error.inj he).symm

/-- The result deleter only ever raises the attribute error on a missing
entry. -/
lemma delResult_error_eq (j : Job) (st : Store) (e : String) :
    j.delResult st = .error e → e = "AttributeError" := by
  intro he
  unfold Job.delResult at he
  split at he
  · exact (Except.error.inj he).symm
  · split at he
    · exact Except.noConfusion he
    · exact Except.noConfusion he
    · exact Except.noConfusion he

/-- The result setter only ever raises the deleter's attribute error. -/
lemma setResult_error_eq (j : Job) (st : Store) (v : PValue) (e : String) :
    j.setResult st v = .error e → e = "AttributeError" := by
  intro he
  unfold Job.setResult at he
  split at he
  · rename_i heq
    cases Except.error.inj he
    exact delResult_error_eq j st _ heq
  · simp [fsPut, dumps] at he

/-- `run` raises the policy `TypeError` exactly on arguments that
normalize outside the recognized set, regardless of the job and store. -/
lemma run_typeError_iff (j : Job) (st : Store) (pol : Option String) :
    j.run st pol
        = .error "TypeError: store must be one of classifier, score, prediction, or none"
      ↔ normPolicy pol ∉ ["classifier", "none", "score", "prediction"] := by
  by_cases hmem : normPolicy pol ∈ ["classifier", "none", "score", "prediction"]
  · simp only [hmem, not_true_eq_false, iff_false]
    intro he
    simp only [Job.run, hmem, if_true] at he
    cases hr : j.result st with
    | error e =>
      simp only [hr] at he
      injection he with hh
      rw [result_error_eq j st e hr] at hh
      exact absurd hh (by decide)
    | ok r =>
      simp only [hr] at he
      by_cases hpn : r ≠ PValue.pnone
      · rw [if_pos hpn] at he
        exact Except.noConfusion he
      · rw [if_neg hpn] at he
        by_cases h1 : normPolicy pol = "classifier"
        · rw [if_pos h1] at he
          cases hs : j.setResult st (.artifact (j.clf.fit j.params j.X j.Y)) with
          | error e2 =>
            simp only [hs] at he
            injection he with hh
            rw [setResult_error_eq j st _ e2 hs] at hh
            exact absurd hh (by decide)
          | ok st2 =>
            simp only [hs] at he
            exact Except.noConfusion he
        · rw [if_neg h1] at he
          by_cases h2 : normPolicy pol = "score"
          · rw [if_pos h2] at he
            cases hs : j.setResult st
                (.score (j.clf.score (j.clf.fit j.params j.X j.Y) j.X j.Y)) with
            | error e2 =>
              simp only [hs] at he
              injection he with hh
              rw [setResult_error_eq j st _ e2 hs] at hh
              exact absurd hh (by decide)
            | ok st2 =>
              simp only [hs] at he
              exact Except.noConfusion he
          · rw [if_neg h2] at he
            by_cases h3 : normPolicy pol = "prediction"
            · rw [if_pos h3] at he
              cases hs : j.setResult st
                  (.pred (j.clf.predict (j.clf.fit j.params j.X j.Y) j.X)) with
              | error e2 =>
                simp only [hs] at he
                injection he with hh
                rw [setResult_error_eq j st _ e2 hs] at hh
                exact absurd hh (by decide)
              | ok st2 =>
                simp only [hs] at he
                exact Except.noConfusion he
            · rw [if_neg h3] at he
              exact Except.noConfusion he
  · simp only [hmem, not_false_iff, iff_true]
    simp only [Job.run, hmem, if_false]

/-- C8 counterexample: `run` accepts policy arguments that are not among
the recognized policy values: the null value (which is not the string of
any recognized policy) runs successfully under the `none` behaviour, and
the differently-cased string `"SCORE"` (equal to none of the recognized
policy strings) does not raise the policy error either. -/
theorem run_accepts_unlisted_policy_values :
    Job.run jobC stC none = .ok (.artifact "fitA:xy", stC, true) ∧
    (none : Option String) ∉ ["full-result", "classifier", "score", "prediction", "none"].map some ∧
    Job.run jobC stC (some "SCORE")
      ≠ .error "TypeError: store must be one of classifier, score, prediction, or none" ∧
    ("SCORE" : String) ∉ ["full-result", "classifier", "score", "prediction", "none"] := by
  decide

/-- C8 (amended): `run` fails with the policy `TypeError` exactly when
its `store` argument, after the normalization `run` applies first (null
becomes `"none"`, then lowercasing), is not one of the recognized
policies; the equivalence holds for every job and store state, and the
error outcome carries no new state — the validity check precedes the
result lookup and the fit, so nothing is executed or written. -/
theorem run_invalid_policy_error (j : Job) (st : Store) (pol : Option String) :
    j.run st pol
        = .error "TypeError: store must be one of classifier, score, prediction, or none"
      ↔ normPolicy pol ∉ ["classifier", "none", "score", "prediction"] :=
  run_typeError_iff j st pol

/-- Witness for the amended C8 at a concrete invalid policy. -/
theorem run_invalid_policy_error_witness :
    Job.run jobC stC (some "bogus")
        = .error "TypeError: store must be one of classifier, score, prediction, or none"
      ↔ normPolicy (some "bogus") ∉ ["classifier", "none", "score", "prediction"] :=
  run_invalid_policy_error jobC stC (some "bogus")

/-- Runs whose policy arguments normalize identically behave
identically. -/
lemma run_policy_congr (j : Job) (st : Store) (a b : Option String)
    (hab : normPolicy a = normPolicy b) : j.run st a = j.run st b := by
  unfold Job.run
  rw [hab]

/-- C10: `run` normalizes its policy argument before validating it:
passing the null value behaves exactly as passing `"none"`, the policy
string is matched case-insensitively (`"SCORE"` behaves as `"score"`),
and the policy `TypeError` is raised exactly for the values that fall
outside the recognized set after this normalization. -/
theorem run_normalizes_policy (j : Job) (st : Store) :
    j.run st none = j.run st (some "none") ∧
    j.run st (some "SCORE") = j.run st (some "score") ∧
    (∀ pol, j.run st pol
        = .error "TypeError: store must be one of classifier, score, prediction, or none"
      ↔ normPolicy pol ∉ ["classifier", "none", "score", "prediction"]) :=
  ⟨rfl, run_policy_congr j st (some "SCORE") (some "score") (by decide),
   fun pol => run_typeError_iff j st pol⟩

/-- Witness for C10 at the concrete job and store. -/
theorem run_normalizes_policy_witness :
    Job.run jobC stC none = Job.run jobC stC (some "none") ∧
    Job.run jobC stC (some "SCORE") = Job.run jobC stC (some "score") ∧
    (∀ pol, Job.run jobC stC pol
        = .error "TypeError: store must be one of classifier, score, prediction, or none"
      ↔ normPolicy pol ∉ ["classifier", "none", "score", "prediction"]) :=
  run_normalizes_policy jobC stC

/-!
## C9
-/

/-- C9 counterexample: the metadata setter is an upsert onto the entry
document itself, so setting a *fingerprint* field (here `clf`) rewrites
the entry in place; the job's query no longer matches it, and the
subsequent `Get` of that key fails with the uncaught `TypeError` from
subscripting `None` instead of returning the value just set. -/
theorem metadata_set_fingerprint_key_breaks_get :
    Job.getItem jobC (Job.setItem jobC stC "clf" (Val.str "other")) "clf"
      = .error "TypeError: NoneType is not subscriptable" := by
  decide

/-- C9 (amended): for every key that is not one of the entry's
fingerprint fields, `Get` on a fresh job fails with the `KeyError` whose
message names the key; after `Set(key, value)`, `Get(key)` returns the
value — both from the same Job instance and from a freshly constructed
duplicate instance. -/
theorem metadata_get_set (h : Data → String) (clf : ClfClass) (X Y : Data) (p : Params)
    (key : String) (v : Val)
    (hkey : key ∉ ["_x_hash", "_y_hash", "clf", "params"]) :
    (mkJob h clf X Y p none Store.empty).1.getItem (mkJob h clf X Y p none Store.empty).2 key
      = .error ("KeyError: No attribute " ++ key ++ " associated with this job") ∧
    (mkJob h clf X Y p none Store.empty).1.getItem
        ((mkJob h clf X Y p none Store.empty).1.setItem
          (mkJob h clf X Y p none Store.empty).2 key v) key = .ok v ∧
    (mkJob h clf X Y p none
        ((mkJob h clf X Y p none Store.empty).1.setItem
          (mkJob h clf X Y p none Store.empty).2 key v)).1.duplicate = true ∧
    (mkJob h clf X Y p none
        ((mkJob h clf X Y p none Store.empty).1.setItem
          (mkJob h clf X Y p none Store.empty).2 key v)).1.getItem
        ((mkJob h clf X Y p none Store.empty).1.setItem
          (mkJob h clf X Y p none Store.empty).2 key v) key = .ok v := by
  have hk : ¬ key = "_x_hash" ∧ ¬ key = "_y_hash" ∧ ¬ key = "clf" ∧ ¬ key = "params" := by
    simpa using hkey
  obtain ⟨hk1, hk2, hk3, hk4⟩ := hk
  refine ⟨?_, ?_, ?_, ?_⟩ <;>
    simp [mkJob, entryFor, Job.getItem, Job.setItem, Job.duplicate, findOne, docMatches,
      docLookup, updateOne, setField, insertDoc, Store.empty, hk1, hk2, hk3, hk4,
      Ne.symm hk1, Ne.symm hk2, Ne.symm hk3, Ne.symm hk4]

/-- Witness for the amended C9 at a concrete metadata key. -/
theorem metadata_get_set_witness :
    ("host" : String) ∉ ["_x_hash", "_y_hash", "clf", "params"] ∧
    ((mkJob hashId clfA "x" "y" [("C", 1)] none Store.empty).1.getItem
        (mkJob hashId clfA "x" "y" [("C", 1)] none Store.empty).2 "host"
      = .error ("KeyError: No attribute " ++ "host" ++ " associated with this job") ∧
     (mkJob hashId clfA "x" "y" [("C", 1)] none Store.empty).1.getItem
        ((mkJob hashId clfA "x" "y" [("C", 1)] none Store.empty).1.setItem
          (mkJob hashId clfA "x" "y" [("C", 1)] none Store.empty).2 "host" (Val.int 123)) "host"
      = .ok (Val.int 123) ∧
     (mkJob hashId clfA "x" "y" [("C", 1)] none
        ((mkJob hashId clfA "x" "y" [("C", 1)] none Store.empty).1.setItem
          (mkJob hashId clfA "x" "y" [("C", 1)] none Store.empty).2 "host"
          (Val.int 123))).1.duplicate = true ∧
     (mkJob hashId clfA "x" "y" [("C", 1)] none
        ((mkJob hashId clfA "x" "y" [("C", 1)] none Store.empty).1.setItem
          (mkJob hashId clfA "x" "y" [("C", 1)] none Store.empty).2 "host"
          (Val.int 123))).1.getItem
        ((mkJob hashId clfA "x" "y" [("C", 1)] none Store.empty).1.setItem
          (mkJob hashId clfA "x" "y" [("C", 1)] none Store.empty).2 "host" (Val.int 123)) "host"
      = .ok (Val.int 123)) :=
  ⟨by decide, metadata_get_set hashId clfA "x" "y" [("C", 1)] "host" (Val.int 123) (by decide)⟩
